import Mathlib

/-!
Verification development for the tflite-rs build orchestrator (`build.rs`).

The build script is effectful, so it is embedded as explicit state passing
over a model filesystem (`FS`), with oracles (`World`) for the external
collaborators the script calls into: the HTTP client (reqwest), the SHA-256
and hex crates, external commands (`Command::status`), the tar/gzip
unpacker, the bindgen C++ parser, and the cpp_build shim compiler.
Every run yields an `Outcome`: either a value with the final filesystem and
a trace of performed effects, or a fatal abort (a Rust panic from
`unwrap`/`expect`/`assert!`) with the state at the point of abort.
-/

/-- Paths are plain strings, as produced by `PathBuf::join` (modelled by
string concatenation with "/"). -/
abbrev FsPath := String

/-- File contents as raw bytes. -/
abbrev Bytes := List Nat

/-- The model filesystem: an association list of files and a list of
existing directories. -/
structure FS where
  files : List (FsPath × Bytes)
  dirs : List FsPath
deriving Repr, DecidableEq

def FS.fileExists (fs : FS) (p : FsPath) : Bool :=
  (fs.files.lookup p).isSome

def FS.dirExists (fs : FS) (p : FsPath) : Bool :=
  fs.dirs.contains p

/-- Create or overwrite the file at `p` with contents `b`. -/
def FS.writeFile (fs : FS) (p : FsPath) (b : Bytes) : FS :=
  { fs with files := (p, b) :: fs.files.filter (fun e => !(e.1 == p)) }

def FS.removeFile (fs : FS) (p : FsPath) : FS :=
  { fs with files := fs.files.filter (fun e => !(e.1 == p)) }

/-- Embeds `fs::create_dir(..).unwrap_or_default()`: creating an existing directory
is an error in Rust, but the error is discarded, so the model is a no-op
there. -/
def FS.createDir (fs : FS) (p : FsPath) : FS :=
  if fs.dirs.contains p then fs else { fs with dirs := p :: fs.dirs }

/-- Observable side effects of one run, in order. -/
inductive Effect where
  | createDir (p : FsPath)
  | fetch (url : String)
  | fileWrite (p : FsPath)
  | unpackArchive (src dst : FsPath)
  | runCmd (cmd : String) (args : List String) (cwd : FsPath)
  | copy (src dst : FsPath)
  | removeFile (p : FsPath)
  | generateBindings
  | compileShim (include_dir : FsPath)
deriving Repr, DecidableEq

/-- The ways the build script aborts: `unwrap()` on an `Err`/missing file,
`expect(msg)`, and the `assert!` on hash verification. -/
inductive BuildError where
  | transport (url : String)
  | unwrapPanic (what : String)
  | expectPanic (msg : String)
  | integrityPanic (p : FsPath)
deriving Repr, DecidableEq

/-- Result of running a stage: value, final filesystem and effect trace on
success; error, state and trace at the abort point on a fatal panic. -/
inductive Outcome (α : Type) where
  | ok (val : α) (fs : FS) (tr : List Effect)
  | fatal (err : BuildError) (fs : FS) (tr : List Effect)
deriving Repr, DecidableEq

/-- Sequencing of stages: effects accumulate in order, a fatal abort stops
the pipeline. -/
def Outcome.bind {α β : Type} (o : Outcome α) (f : α → FS → Outcome β) : Outcome β :=
  match o with
  | .fatal e fs tr => .fatal e fs tr
  | .ok a fs tr =>
    match f a fs with
    | .fatal e fs' tr' => .fatal e fs' (tr ++ tr')
    | .ok b fs' tr' => .ok b fs' (tr ++ tr')

def Outcome.trace {α : Type} : Outcome α → List Effect
  | .ok _ _ tr => tr
  | .fatal _ _ tr => tr

def Outcome.fsOf {α : Type} : Outcome α → FS
  | .ok _ fs _ => fs
  | .fatal _ fs _ => fs

def Outcome.isOk {α : Type} : Outcome α → Bool
  | .ok _ _ _ => true
  | .fatal _ _ _ => false

/-- One C++ type as seen by the native parser in the header tree: its name,
its fields (name and type) and its layout size. -/
structure HeaderType where
  name : String
  fields : List (String × String)
  size : Nat
deriving Repr, DecidableEq

abbrev HeaderTree := List HeaderType

/-- The bindgen `Builder` configuration state, with bindgen's defaults.
Only the knobs `import_tflite_types` sets are modelled. -/
structure Builder where
  whitelistRecursively : Bool := true
  prependEnumName : Bool := true
  implDebug : Bool := false
  codegenConfig : List String := ["functions", "types", "vars", "methods", "constructors", "destructors"]
  layoutTests : Bool := true
  enableCxxNamespaces : Bool := false
  deriveDefault : Bool := false
  whitelistedTypes : List String := []
  opaqueTypes : List String := []
  blacklistedTypes : List String := []
  enumStyle : String := "consts"
  headers : List String := []
  clangArgs : List String := []
deriving Repr, DecidableEq

def Builder.whitelist_recursively (b : Builder) (v : Bool) : Builder :=
  { b with whitelistRecursively := v }

def Builder.prepend_enum_name (b : Builder) (v : Bool) : Builder :=
  { b with prependEnumName := v }

def Builder.impl_debug (b : Builder) (v : Bool) : Builder :=
  { b with implDebug := v }

def Builder.with_codegen_config (b : Builder) (v : List String) : Builder :=
  { b with codegenConfig := v }

def Builder.layout_tests (b : Builder) (v : Bool) : Builder :=
  { b with layoutTests := v }

def Builder.enable_cxx_namespaces (b : Builder) : Builder :=
  { b with enableCxxNamespaces := true }

def Builder.derive_default (b : Builder) (v : Bool) : Builder :=
  { b with deriveDefault := v }

def Builder.whitelist_type (b : Builder) (s : String) : Builder :=
  { b with whitelistedTypes := b.whitelistedTypes ++ [s] }

def Builder.opaque_type (b : Builder) (s : String) : Builder :=
  { b with opaqueTypes := b.opaqueTypes ++ [s] }

def Builder.blacklist_type (b : Builder) (s : String) : Builder :=
  { b with blacklistedTypes := b.blacklistedTypes ++ [s] }

def Builder.default_enum_style (b : Builder) (s : String) : Builder :=
  { b with enumStyle := s }

def Builder.header (b : Builder) (s : String) : Builder :=
  { b with headers := b.headers ++ [s] }

def Builder.clang_arg (b : Builder) (s : String) : Builder :=
  { b with clangArgs := b.clangArgs ++ [s] }

/-- Oracles for everything outside the build script itself.
`net url` is the HTTP GET: `none` means `reqwest::get` fails; otherwise the
response body, with `some k` meaning the transfer breaks after `k` bytes
(`copy_to` returns an error mid-stream).
`run fs cmd args cwd` is `Command::status()`: `none` means the process
could not be spawned (the only case `status()` reports as `Err`);
otherwise the exit code and the filesystem as the external command left it.
`unpack` is gzip+tar: the extracted entries, or `none` for a corrupt archive.
`parseHeaders` is bindgen and the clang parser reading the header tree;
`cppBuild` is the cpp_build shim compilation. -/
structure World where
  sha256hex : Bytes → String
  net : String → Option (Bytes × Option Nat)
  run : FS → String → List String → FsPath → Option (Int × FS)
  unpack : Bytes → Option (List (FsPath × Bytes) × List FsPath)
  parseHeaders : FS → Builder → Option HeaderTree
  cppBuild : FS → FsPath → Option FS

/-- The cargo environment the script reads: OUT_DIR, CARGO_CFG_TARGET_OS,
CARGO_CFG_TARGET_ARCH, the optional TFLITE_RS_MAKE_PARALLELISM override
and the debug_tflite cargo feature. -/
structure Env where
  out_dir : String
  target_os : String
  target_arch : String
  make_parallelism : Option String
  debug_tflite : Bool
deriving Repr, DecidableEq

def TFLITE_VERSION : String := "1.12.2"

def TF_SRC_SHA256 : String :=
  "90ffc7cf1df5e4b8385c9108db18d5d5034ec423547c0e167d44f5746a20d06b"

def tfSrcDir (env : Env) : FsPath := env.out_dir ++ "/tensorflow"

def tfSrcName (env : Env) : FsPath :=
  tfSrcDir env ++ "/v" ++ TFLITE_VERSION ++ ".tar.gz"

def tfSrcUrl : String :=
  "https://codeload.github.com/tensorflow/tensorflow/tar.gz/v" ++ TFLITE_VERSION

def tfSrcDirInner (env : Env) : FsPath :=
  tfSrcDir env ++ "/tensorflow-" ++ TFLITE_VERSION

/-- Embeds `is_valid_tf_src`: read the whole file, SHA-256 it, hex-encode and
compare with the pinned digest. `fs::read(..).unwrap()` panics when the
file cannot be read, modelled as `none`. -/
def is_valid_tf_src (w : World) (fs : FS) (filepath : FsPath) : Option Bool :=
  (fs.files.lookup filepath).map (fun bytes => w.sha256hex bytes == TF_SRC_SHA256)

/-- Embeds `download`: `reqwest::get(url)?`, then `File::create(target)?` (which
truncates/creates the file at once), then `copy_to` streams the body into
it. A transfer broken after `k` bytes leaves `body.take k` on disk and
returns the error (the caller then panics via `unwrap()`). -/
def download (w : World) (fs : FS) (source_url : String) (target_file : FsPath) : Outcome Unit :=
  match w.net source_url with
  | none => .fatal (.transport source_url) fs [.fetch source_url]
  | some (body, cut) =>
    let fs1 := (fs.writeFile target_file []).writeFile target_file
      (match cut with | none => body | some k => body.take k)
    match cut with
    | none => .ok () fs1 [.fetch source_url, .fileWrite target_file]
    | some _ => .fatal (.transport source_url) fs1 [.fetch source_url, .fileWrite target_file]

/-- Embeds `extract`: `File::open(archive).unwrap()`, gzip-decode and
`Archive::unpack(extract_to).unwrap()`; the archive entries land under
`extract_to`. -/
def extract (w : World) (fs : FS) (archive_path extract_to : FsPath) : Outcome Unit :=
  match fs.files.lookup archive_path with
  | none => .fatal (.unwrapPanic "File::open") fs []
  | some bytes =>
    match w.unpack bytes with
    | none =>
      .fatal (.unwrapPanic "Archive::unpack") fs [.unpackArchive archive_path extract_to]
    | some (entries, ds) =>
      let fs1 := { fs with dirs := fs.dirs ++ ds.map (fun d => extract_to ++ "/" ++ d) }
      .ok () (entries.foldl (fun acc e => acc.writeFile (extract_to ++ "/" ++ e.1) e.2) fs1)
        [.unpackArchive archive_path extract_to]

/-- Embeds `fs::copy(src, dst).expect(msg)`: panics when the source file is
missing, otherwise overwrites `dst` with the contents of `src`. -/
def copyFileOrPanic (fs : FS) (src dst : FsPath) (msg : String) : Outcome Unit :=
  match fs.files.lookup src with
  | none => .fatal (.expectPanic msg) fs [.copy src dst]
  | some b => .ok () (fs.writeFile dst b) [.copy src dst]

/-- Embeds `fs::remove_file(p).expect(msg)`. -/
def removeFileOrPanic (fs : FS) (p : FsPath) (msg : String) : Outcome Unit :=
  if fs.fileExists p then .ok () (fs.removeFile p) [.removeFile p]
  else .fatal (.expectPanic msg) fs [.removeFile p]

/-- Embeds `Command::new(cmd).args(..).current_dir(cwd).status().expect(msg)`:
aborts only when the process cannot be spawned. A non-zero exit status is
handed back to the caller, which (in this build script) never inspects
it. -/
def runStatus (w : World) (fs : FS) (cmd : String) (args : List String) (cwd : FsPath)
    (msg : String) : Outcome Int :=
  match w.run fs cmd args cwd with
  | none => .fatal (.expectPanic msg) fs [.runCmd cmd args cwd]
  | some (code, fs') => .ok code fs' [.runCmd cmd args cwd]

/-- A step guarded by an `if` on the cargo target configuration. -/
def condStep (c : Bool) (f : FS → Outcome Unit) (fs : FS) : Outcome Unit :=
  if c then f fs else .ok () fs []

/-- The guard of the acquisition `if` in `prepare_tensorflow_source`:
`!tf_src_name.exists() || !is_valid_tf_src(&tf_src_name)` — by
short-circuiting, `is_valid_tf_src` is only reached when the file exists,
so its `unwrap` cannot panic there (`getD false` is that dead branch). -/
def archiveMissingOrInvalid (w : World) (fs : FS) (name : FsPath) : Bool :=
  !fs.fileExists name || !((is_valid_tf_src w fs name).getD false)

/-- Lines 51-65 of `prepare_tensorflow_source`: fetch the archive when it
is absent or fails verification, then `assert!(is_valid_tf_src(..))`. -/
def acquireSource (w : World) (env : Env) (fs : FS) : Outcome Unit :=
  let name := tfSrcName env
  if archiveMissingOrInvalid w fs name then
    (download w fs tfSrcUrl name).bind fun _ fs1 =>
      match is_valid_tf_src w fs1 name with
      | some true => .ok () fs1 []
      | some false => .fatal (.integrityPanic name) fs1 []
      | none => .fatal (.unwrapPanic "fs::read") fs1 []
  else .ok () fs []

def depScript : String := "tensorflow/contrib/lite/tools/make/download_dependencies.sh"

def liteMakefile : String := "tensorflow/contrib/lite/tools/make/Makefile"

def sedArgs1 : List String :=
  ["-i", "54s/.*/CXXFLAGS := -O0 -g -fno-inline/", liteMakefile]

def sedArgs2 : List String :=
  ["-i", "57s/.*/CFLAGS := -O0 -g -fno-inline/", liteMakefile]

/-- Lines 67-122 of `prepare_tensorflow_source`: guarded by the existence
of the unpacked tree, extract the archive, run the dependency-fetch script,
overwrite the platform makefiles for the matching target os/arch, delete
the two colliding source files, and (under the debug_tflite feature) rewrite
the optimisation flags in the Makefile via sed. -/
def extractAndPatch (w : World) (env : Env) (fs : FS) : Outcome Unit :=
  let inner := tfSrcDirInner env
  if fs.dirExists inner then .ok () fs []
  else
    (extract w fs (tfSrcName env) (tfSrcDir env)).bind fun _ fs1 =>
    (runStatus w fs1 depScript [] inner "failed to download tflite dependencies.").bind fun _ fs2 =>
    (condStep (env.target_os == "linux") (fun fsx =>
      copyFileOrPanic fsx "data/linux_makefile.inc"
        (inner ++ "/tensorflow/contrib/lite/tools/make/targets/linux_makefile.inc")
        "Unable to copy linux makefile") fs2).bind fun _ fs3 =>
    (condStep (env.target_arch == "aarch64") (fun fsx =>
      copyFileOrPanic fsx "data/aarch64_makefile.inc"
        (inner ++ "/tensorflow/contrib/lite/tools/make/targets/aarch64_makefile.inc")
        "Unable to copy aarch64 makefile") fs3).bind fun _ fs4 =>
    (removeFileOrPanic fs4 (inner ++ "/tensorflow/contrib/lite/mmap_allocation_disabled.cc")
      "Unable to disable mmap allocation").bind fun _ fs5 =>
    (removeFileOrPanic fs5 (inner ++ "/tensorflow/contrib/lite/nnapi_delegate.cc")
      "Unable to remove nnapi delegate").bind fun _ fs6 =>
    condStep env.debug_tflite (fun fsx =>
      (runStatus w fsx "sed" sedArgs1 inner "failed to edit Makefile.").bind fun _ fsy =>
      (runStatus w fsy "sed" sedArgs2 inner "failed to edit Makefile.").bind fun _ fsz =>
      .ok () fsz []) fs6

/-- Embeds `prepare_tensorflow_source`: create the tensorflow directory under
OUT_DIR (errors ignored), acquire and verify the archive, then extract and
patch the tree when it is not already present; returns the inner tree
path. -/
def prepare_tensorflow_source (w : World) (env : Env) (fs : FS) : Outcome FsPath :=
  let fs0 := fs.createDir (tfSrcDir env)
  (Outcome.ok () fs0 [.createDir (tfSrcDir env)]).bind fun _ fsa =>
  (acquireSource w env fsa).bind fun _ fsb =>
  (extractAndPatch w env fsb).bind fun _ fsc =>
  .ok (tfSrcDirInner env) fsc []

def tfLibName (env : Env) : FsPath := env.out_dir ++ "/libtensorflow-lite.a"

def makeArgs (env : Env) : List String :=
  ["-j", env.make_parallelism.getD "3", "-f", liteMakefile,
   "TARGET=" ++ env.target_os, "TARGET_ARCH=" ++ env.target_arch]

def genLibPath (env : Env) (tflite : FsPath) : FsPath :=
  tflite ++ "/tensorflow/contrib/lite/tools/make/gen/" ++ env.target_os ++ "_" ++
    env.target_arch ++ "/lib/libtensorflow-lite.a"

/-- Embeds `prepare_tensorflow_library`: skip when the artifact already exists;
otherwise run make with the cargo target os/arch and the parallelism
override (default "3"), then copy the produced static archive from the
make output convention to OUT_DIR. The make exit status is not
inspected. -/
def prepare_tensorflow_library (w : World) (env : Env) (fs : FS) (tflite : FsPath) : Outcome Unit :=
  if fs.fileExists (tfLibName env) then .ok () fs []
  else
    (runStatus w fs "make" (makeArgs env) tflite "failed to build tensorflow").bind fun _ fs1 =>
    copyFileOrPanic fs1 (genLibPath env tflite) (tfLibName env)
      "Unable to copy libtensorflow-lite.a to OUT_DIR"

/-- The bindgen builder exactly as configured in `import_tflite_types`. -/
def tfliteBindgenBuilder (tflite : FsPath) : Builder :=
  ({} : Builder)
    |>.whitelist_recursively false
    |>.prepend_enum_name false
    |>.impl_debug true
    |>.with_codegen_config ["types"]
    |>.layout_tests false
    |>.enable_cxx_namespaces
    |>.derive_default true
    |>.whitelist_type "tflite::FlatBufferModel"
    |>.opaque_type "tflite::FlatBufferModel"
    |>.whitelist_type "tflite::InterpreterBuilder"
    |>.opaque_type "tflite::InterpreterBuilder"
    |>.whitelist_type "tflite::Interpreter"
    |>.opaque_type "tflite::Interpreter"
    |>.whitelist_type "tflite::ops::builtin::BuiltinOpResolver"
    |>.opaque_type "tflite::ops::builtin::BuiltinOpResolver"
    |>.whitelist_type "tflite::OpResolver"
    |>.opaque_type "tflite::OpResolver"
    |>.whitelist_type "TfLiteTensor"
    |>.whitelist_type "TfLiteType"
    |>.whitelist_type "TfLitePtrUnion"
    |>.whitelist_type "TfLiteIntArray"
    |>.whitelist_type "TfLiteQuantizationParams"
    |>.whitelist_type "TfLiteAllocationType"
    |>.whitelist_type "TfLiteDelegate"
    |>.opaque_type "TfLiteDelegate"
    |>.whitelist_type "TfLiteBufferHandle"
    |>.whitelist_type "TfLiteComplex64"
    |>.whitelist_type "TfLiteStatus"
    |>.whitelist_type "TfLiteQuantizationParams"
    |>.blacklist_type "std"
    |>.blacklist_type "tflite::Interpreter_TfLiteDelegatePtr"
    |>.blacklist_type "tflite::Interpreter_State"
    |>.default_enum_style "rust"
    |>.header "csrc/tflite_wrapper.hpp"
    |>.clang_arg ("-I" ++ tflite)
    |>.clang_arg ("-I" ++ tflite ++ "/tensorflow/contrib/lite/tools/make/downloads/flatbuffers/include")
    |>.clang_arg "-DGEMMLOWP_ALLOW_SLOW_SCALAR_FALLBACK"
    |>.clang_arg "-x"
    |>.clang_arg "c++"
    |>.clang_arg "-std=c++11"
    |>.clang_arg "-fms-extensions"

/-- One generated type declaration: concrete with its fields, or an opaque
handle with no accessible fields (only a size placeholder). -/
inductive GenDecl where
  | concrete (name : String) (fields : List (String × String))
  | opaqueHandle (name : String) (size : Nat)
deriving Repr, DecidableEq

def GenDecl.name : GenDecl → String
  | .concrete n _ => n
  | .opaqueHandle n _ => n

def GenDecl.accessibleFields : GenDecl → List (String × String)
  | .concrete _ fs => fs
  | .opaqueHandle _ _ => []

def GenDecl.isOpaqueHandle : GenDecl → Bool
  | .concrete _ _ => false
  | .opaqueHandle _ _ => true

/-- Modelled from the spec: the code generation step of the external
bindgen crate is not part of this repository (only its `Builder`
configuration in `import_tflite_types` is). Per the spec, with recursive
inclusion disabled only explicitly allow-listed names are emitted;
blacklisted names are excluded even when structurally reachable; entries
marked opaque are emitted with no accessible layout; the rest are emitted
layout-faithfully; the output is a pure function of the configuration and
the header tree. -/
def generateBindings (b : Builder) (headers : HeaderTree) : List GenDecl :=
  headers.filterMap fun t =>
    if b.blacklistedTypes.contains t.name then none
    else if b.whitelistedTypes.contains t.name then
      (if b.opaqueTypes.contains t.name then some (.opaqueHandle t.name t.size)
       else some (.concrete t.name t.fields))
    else none

/-- Modelled from the spec: deterministic rendering of the generated
declarations to the bytes of `tflite_types.rs` (a pure function of the
declaration list). -/
def renderDecls (ds : List GenDecl) : Bytes :=
  (String.intercalate "\n" (ds.map fun d =>
    match d with
    | .concrete n fields =>
      "pub struct " ++ n ++ " (" ++
        String.intercalate "; " (fields.map fun f => f.1 ++ ": " ++ f.2) ++ ")"
    | .opaqueHandle n sz =>
      "pub struct " ++ n ++ " (opaque " ++ toString sz ++ " bytes)")).toList.map Char.toNat

def tfTypesPath (env : Env) : FsPath := env.out_dir ++ "/tflite_types.rs"

/-- Embeds `import_tflite_types`: configure the bindgen builder, generate
(`expect` panics when generation fails), and write `tflite_types.rs` under
OUT_DIR. -/
def import_tflite_types (w : World) (env : Env) (fs : FS) (tflite : FsPath) : Outcome Unit :=
  let b := tfliteBindgenBuilder tflite
  match w.parseHeaders fs b with
  | none => .fatal (.expectPanic "Unable to generate bindings") fs [.generateBindings]
  | some tree =>
    .ok () (fs.writeFile (tfTypesPath env) (renderDecls (generateBindings b tree)))
      [.generateBindings, .fileWrite (tfTypesPath env)]

/-- Embeds `build_inline_cpp`: cpp_build compiles the inline shim against the
tree; any failure panics inside cpp_build. -/
def build_inline_cpp (w : World) (fs : FS) (tflite : FsPath) : Outcome Unit :=
  match w.cppBuild fs tflite with
  | none => .fatal (.expectPanic "cpp_build failed") fs [.compileShim tflite]
  | some fs' => .ok () fs' [.compileShim tflite]

/-- Embeds `main`: the four stages in sequence. -/
def mainBuild (w : World) (env : Env) (fs : FS) : Outcome Unit :=
  (prepare_tensorflow_source w env fs).bind fun tflite fs1 =>
  (prepare_tensorflow_library w env fs1 tflite).bind fun _ fs2 =>
  (import_tflite_types w env fs2 tflite).bind fun _ fs3 =>
  build_inline_cpp w fs3 tflite

/-- A world in which every external collaborator fails. -/
def idleWorld : World where
  sha256hex := fun _ => "sha-of-unknown-bytes"
  net := fun _ => none
  run := fun _ _ _ _ => none
  unpack := fun _ => none
  parseHeaders := fun _ _ => none
  cppBuild := fun _ _ => none

/-- A SHA-256 oracle pinning `good` to the expected digest. -/
def pinnedSha (good : Bytes) : Bytes → String :=
  fun b => if b = good then TF_SRC_SHA256 else "sha-of-other-bytes"

def shaWorld : World := { idleWorld with sha256hex := pinnedSha [7] }

def envLinux64 : Env :=
  { out_dir := "out", target_os := "linux", target_arch := "x86_64",
    make_parallelism := none, debug_tflite := false }

/-- Number of fetch (HTTP GET) effects in a trace. -/
def fetchCount (tr : List Effect) : Nat :=
  (tr.filter fun e => match e with | .fetch _ => true | _ => false).length

def fsEmpty : FS := { files := [], dirs := [] }

def fsArchiveGood : FS :=
  { files := [("out/tensorflow/v1.12.2.tar.gz", [7])], dirs := [] }

def fsArchiveBad : FS :=
  { files := [("out/tensorflow/v1.12.2.tar.gz", [8])], dirs := [] }

/-- A world whose HTTP GET delivers the pinned archive bytes in full. -/
def goodNetWorld : World :=
  { idleWorld with
      sha256hex := pinnedSha [7],
      net := fun u => if u = tfSrcUrl then some ([7], none) else none }

/-- A world whose HTTP GET delivers bytes that do not hash to the pinned
digest (a wrong or truncated archive). -/
def badNetWorld : World :=
  { idleWorld with
      sha256hex := pinnedSha [7],
      net := fun u => if u = tfSrcUrl then some ([9], none) else none }

def Outcome.errOf {α : Type} : Outcome α → Option BuildError
  | .ok _ _ _ => none
  | .fatal e _ _ => some e

/-- A world where every external command exits with status 1 (but spawns),
and the archive unpacks to a tree holding the two files the patcher
deletes. -/
def exitOneWorld : World :=
  { idleWorld with
      sha256hex := pinnedSha [7],
      run := fun fsx _ _ _ => some (1, fsx),
      unpack := fun b =>
        if b = [7] then
          some ([("tensorflow-1.12.2/tensorflow/contrib/lite/mmap_allocation_disabled.cc", []),
                 ("tensorflow-1.12.2/tensorflow/contrib/lite/nnapi_delegate.cc", [])],
                ["tensorflow-1.12.2"])
        else none }

/-- A populated output directory holding the verified archive and the
crate's data files, but no unpacked tree yet. -/
def fsFreshTree : FS :=
  { files := [("out/tensorflow/v1.12.2.tar.gz", [7]), ("data/linux_makefile.inc", [3]),
              ("data/aarch64_makefile.inc", [4])],
    dirs := ["out", "out/tensorflow"] }

/-- A world whose make produces the static library at the make output
convention path for (linux, x86_64) under the working tree "tree". -/
def makeWorld : World :=
  { idleWorld with
      run := fun fsx c _ _ =>
        if c = "make" then
          some (0, fsx.writeFile
            "tree/tensorflow/contrib/lite/tools/make/gen/linux_x86_64/lib/libtensorflow-lite.a"
            [42])
        else none }

/-- Effects belonging to acquisition, extraction, patching or the native
build: a network fetch, an archive unpack, an external command, a file
copy, or a file deletion. -/
def Effect.isAcquisitionOrBuild : Effect → Bool
  | .fetch _ => true
  | .unpackArchive _ _ => true
  | .runCmd _ _ _ => true
  | .copy _ _ => true
  | .removeFile _ => true
  | _ => false

def acquisitionOrBuildEffects (tr : List Effect) : List Effect :=
  tr.filter Effect.isAcquisitionOrBuild

/-- A world for a fully populated output directory: the archive hashes to
the pinned digest, the header parse succeeds and the shim compiles. -/
def populatedWorld : World :=
  { idleWorld with
      sha256hex := pinnedSha [7],
      parseHeaders := fun _ _ => some [],
      cppBuild := fun fsx _ => some fsx }

/-- A fully populated output directory: verified archive, unpacked working
tree, built artifact, and the generated types file from a previous run. -/
def fsPopulated : FS :=
  { files := [("out/tensorflow/v1.12.2.tar.gz", [7]),
              ("out/libtensorflow-lite.a", [1]),
              ("out/tflite_types.rs", [9])],
    dirs := ["out", "out/tensorflow", "out/tensorflow/tensorflow-1.12.2"] }

/-- A world whose HTTP transfer of the archive breaks after 2 bytes. -/
def cutNetWorld : World :=
  { idleWorld with
      sha256hex := pinnedSha [7],
      net := fun u => if u = tfSrcUrl then some ([5, 6, 7, 8], some 2) else none }

/-- An output directory already holding (stale) content at the archive
path "t". -/
def fsOldArchive : FS := { files := [("t", [9, 9])], dirs := [] }

/-- A world where external commands succeed (exit 0, touching nothing) and
the archive unpacks to the tree holding the files the patcher deletes. -/
def okCmdWorld : World :=
  { exitOneWorld with run := fun fsx _ _ _ => some (0, fsx) }

def envLinuxA64 : Env :=
  { out_dir := "out", target_os := "linux", target_arch := "aarch64",
    make_parallelism := none, debug_tflite := false }

def envOf (os arch : String) : Env :=
  { out_dir := "out", target_os := os, target_arch := arch,
    make_parallelism := none, debug_tflite := false }

def linuxIncDst : FsPath :=
  "out/tensorflow/tensorflow-1.12.2/tensorflow/contrib/lite/tools/make/targets/linux_makefile.inc"

def aarch64IncDst : FsPath :=
  "out/tensorflow/tensorflow-1.12.2/tensorflow/contrib/lite/tools/make/targets/aarch64_makefile.inc"

/-- A header tree holding one opaque-marked type with fields, one concrete
type and one blacklisted type. -/
def sampleTree : HeaderTree :=
  [{ name := "tflite::Interpreter", fields := [("impl", "void*")], size := 96 },
   { name := "TfLiteTensor", fields := [("type", "TfLiteType"), ("data", "TfLitePtrUnion")],
     size := 64 },
   { name := "std", fields := [("internal", "char")], size := 1 }]

def w9a : World := { idleWorld with parseHeaders := fun _ _ => some [] }

def w9b : World := { goodNetWorld with parseHeaders := fun _ _ => some [] }

/-! Helper lemmas and the claim theorems. -/

theorem lookup_filter_ne {β : Type} (l : List (String × β)) (p q : String) (h : q ≠ p) :
    (l.filter (fun e => !(e.1 == p))).lookup q = l.lookup q := by
  induction l with
  | nil => rfl
  | cons e l ih =>
    rcases e with ⟨k, v⟩
    by_cases he : k = p
    · subst he
      have hq : (q == k) = false := by simp [h]
      simp [List.filter_cons, List.lookup, hq, ih]
    · have hk : (k == p) = false := by simp [he]
      simp only [List.filter_cons, hk, Bool.not_false, if_true]
      by_cases hq : q = k
      · subst hq
        simp [List.lookup]
      · have hq' : (q == k) = false := by simp [hq]
        simp [List.lookup, hq', ih]

theorem FS.lookup_writeFile_self (fs : FS) (p : FsPath) (b : Bytes) :
    (fs.writeFile p b).files.lookup p = some b := by
  simp [FS.writeFile, List.lookup]

theorem FS.lookup_writeFile_ne (fs : FS) {p q : FsPath} (b : Bytes) (h : q ≠ p) :
    (fs.writeFile p b).files.lookup q = fs.files.lookup q := by
  have hq : (q == p) = false := by simp [h]
  simp only [FS.writeFile, List.lookup, hq]
  exact lookup_filter_ne fs.files p q h

theorem FS.dirs_writeFile (fs : FS) (p : FsPath) (b : Bytes) :
    (fs.writeFile p b).dirs = fs.dirs := rfl

theorem FS.fileExists_writeFile_self (fs : FS) (p : FsPath) (b : Bytes) :
    (fs.writeFile p b).fileExists p = true := by
  simp [FS.fileExists, FS.lookup_writeFile_self]

theorem FS.files_createDir (fs : FS) (p : FsPath) :
    (fs.createDir p).files = fs.files := by
  simp only [FS.createDir]
  split <;> rfl

theorem FS.fileExists_createDir (fs : FS) (p q : FsPath) :
    (fs.createDir p).fileExists q = fs.fileExists q := by
  simp [FS.fileExists, FS.files_createDir]

theorem FS.dirExists_createDir_of (fs : FS) (p q : FsPath) (h : fs.dirExists q = true) :
    (fs.createDir p).dirExists q = true := by
  simp only [FS.createDir]
  split
  · exact h
  · simp only [FS.dirExists] at h ⊢
    simp only [List.contains_cons, h]
    simp

theorem is_valid_tf_src_congr_files (w : World) (fs1 fs2 : FS) (p : FsPath)
    (h : fs1.files = fs2.files) :
    is_valid_tf_src w fs1 p = is_valid_tf_src w fs2 p := by
  simp [is_valid_tf_src, h]

theorem archiveMissingOrInvalid_congr_files (w : World) (fs1 fs2 : FS) (p : FsPath)
    (h : fs1.files = fs2.files) :
    archiveMissingOrInvalid w fs1 p = archiveMissingOrInvalid w fs2 p := by
  simp [archiveMissingOrInvalid, FS.fileExists, h, is_valid_tf_src, h]

/-- Claim C3: `is_valid_tf_src` returns true iff the lowercase hex SHA-256
digest of the full file bytes equals the pinned value
90ffc7cf1df5e4b8385c9108db18d5d5034ec423547c0e167d44f5746a20d06b; any
content whose digest mismatches, a partial download included, fails
verification identically (the check returns false). -/
theorem c3_verify_iff_pinned_digest (w : World) (fs : FS) (p : FsPath) (bytes : Bytes)
    (h : fs.files.lookup p = some bytes) :
    (is_valid_tf_src w fs p = some true ↔
      w.sha256hex bytes =
        "90ffc7cf1df5e4b8385c9108db18d5d5034ec423547c0e167d44f5746a20d06b") ∧
    (w.sha256hex bytes ≠ TF_SRC_SHA256 → is_valid_tf_src w fs p = some false) := by
  constructor
  · simp [is_valid_tf_src, h, TF_SRC_SHA256]
  · intro hne
    simp [is_valid_tf_src, h, hne]

/-- Witness for C3 at concrete inputs: the pinned bytes verify, others are
rejected. -/
theorem c3_verify_iff_pinned_digest_witness :
    is_valid_tf_src shaWorld fsArchiveGood "out/tensorflow/v1.12.2.tar.gz" = some true ∧
    is_valid_tf_src shaWorld fsArchiveBad "out/tensorflow/v1.12.2.tar.gz" = some false :=
  ⟨((c3_verify_iff_pinned_digest shaWorld fsArchiveGood "out/tensorflow/v1.12.2.tar.gz" [7]
      (by decide)).1).mpr (by decide),
   (c3_verify_iff_pinned_digest shaWorld fsArchiveBad "out/tensorflow/v1.12.2.tar.gz" [8]
      (by decide)).2 (by decide)⟩

/-- Claim C1: a successful acquisition always ends with an archive that
passes verification, fetching exactly once when the archive was absent or
invalid and not at all otherwise; and when the re-fetched archive still
fails verification the stage aborts fatally with the integrity panic. -/
theorem c1_acquisition_verified_or_fatal (w : World) (env : Env) (fs : FS) :
    (∀ fs' tr, acquireSource w env fs = .ok () fs' tr →
      (is_valid_tf_src w fs' (tfSrcName env)).getD false = true ∧
      fetchCount tr = (if archiveMissingOrInvalid w fs (tfSrcName env) then 1 else 0)) ∧
    (∀ body, archiveMissingOrInvalid w fs (tfSrcName env) = true →
      w.net tfSrcUrl = some (body, none) →
      w.sha256hex body ≠ TF_SRC_SHA256 →
      ∃ fs2 tr2, acquireSource w env fs =
        .fatal (BuildError.integrityPanic (tfSrcName env)) fs2 tr2) := by
  constructor
  · intro fs' tr hok
    by_cases hmiss : archiveMissingOrInvalid w fs (tfSrcName env) = true
    · simp only [acquireSource, hmiss, if_true] at hok
      rcases hnet : w.net tfSrcUrl with _ | ⟨body, cut⟩
      · simp [download, hnet, Outcome.bind] at hok
      · rcases cut with _ | k
        · simp only [download, hnet, Outcome.bind] at hok
          rcases hval : is_valid_tf_src w
              ((fs.writeFile (tfSrcName env) []).writeFile (tfSrcName env) body)
              (tfSrcName env) with _ | b
          · simp [hval] at hok
          · rcases b
            · simp [hval] at hok
            · simp only [hval] at hok
              injection hok with hv hfs htr
              subst hfs
              subst htr
              refine ⟨by simp [hval], ?_⟩
              simp [fetchCount, hmiss, List.filter]
        · simp [download, hnet, Outcome.bind] at hok
    · simp only [acquireSource, hmiss, if_false] at hok
      injection hok with hv hfs htr
      subst hfs
      subst htr
      have hmiss' : archiveMissingOrInvalid w fs (tfSrcName env) = false := by
        simpa using hmiss
      simp only [archiveMissingOrInvalid, Bool.or_eq_false_iff, Bool.not_eq_false'] at hmiss'
      refine ⟨hmiss'.2, ?_⟩
      simp [fetchCount, archiveMissingOrInvalid, hmiss'.1, hmiss'.2]
  · intro body hmiss hnet hbad
    refine ⟨(fs.writeFile (tfSrcName env) []).writeFile (tfSrcName env) body,
      [.fetch tfSrcUrl, .fileWrite (tfSrcName env)] ++ [], ?_⟩
    have hval : is_valid_tf_src w
        ((fs.writeFile (tfSrcName env) []).writeFile (tfSrcName env) body)
        (tfSrcName env) = some false := by
      simp [is_valid_tf_src, FS.lookup_writeFile_self, hbad]
    simp [acquireSource, hmiss, download, hnet, Outcome.bind, hval]

/-- Witness for C1 at concrete inputs: with an empty output directory and a
network that serves bytes failing verification, acquisition aborts with the
integrity panic. -/
theorem c1_acquisition_verified_or_fatal_witness :
    ∃ fs2 tr2, acquireSource badNetWorld envLinux64 fsEmpty =
      .fatal (BuildError.integrityPanic (tfSrcName envLinux64)) fs2 tr2 :=
  (c1_acquisition_verified_or_fatal badNetWorld envLinux64 fsEmpty).2 [9]
    (by decide) (by decide) (by decide)

theorem acquireSource_ok_dirs (w : World) (env : Env) (fs fs' : FS) (tr : List Effect)
    (h : acquireSource w env fs = .ok () fs' tr) : fs'.dirs = fs.dirs := by
  by_cases hmiss : archiveMissingOrInvalid w fs (tfSrcName env) = true
  · simp only [acquireSource, hmiss, if_true] at h
    rcases hnet : w.net tfSrcUrl with _ | ⟨body, cut⟩
    · simp [download, hnet, Outcome.bind] at h
    · rcases cut with _ | k
      · simp only [download, hnet, Outcome.bind] at h
        rcases hval : is_valid_tf_src w
            ((fs.writeFile (tfSrcName env) []).writeFile (tfSrcName env) body)
            (tfSrcName env) with _ | b
        · simp [hval] at h
        · rcases b
          · simp [hval] at h
          · simp only [hval] at h
            injection h with hv hfs htr
            subst hfs
            rfl
      · simp [download, hnet, Outcome.bind] at h
  · simp only [acquireSource, hmiss, if_false] at h
    injection h with hv hfs htr
    subst hfs
    rfl

theorem acquireSource_debug_irrel (w : World) (o os a : String) (m : Option String)
    (d1 d2 : Bool) (fs : FS) :
    acquireSource w ⟨o, os, a, m, d1⟩ fs = acquireSource w ⟨o, os, a, m, d2⟩ fs := rfl

/-- Claim C10: when the unpacked working tree already exists, the
extract-and-patch phase of `prepare_tensorflow_source` is an effect-free
identity — dependency script, makefile overwrites, deletions and the
debug rewrite are all skipped — and flipping the debug_tflite feature
leaves the whole of `prepare_tensorflow_source` unchanged. -/
theorem c10_existing_tree_untouched (w : World) (o os a : String) (m : Option String)
    (d : Bool) (fs : FS)
    (hdir : fs.dirExists (tfSrcDirInner ⟨o, os, a, m, d⟩) = true) :
    extractAndPatch w ⟨o, os, a, m, d⟩ fs = .ok () fs [] ∧
    prepare_tensorflow_source w ⟨o, os, a, m, true⟩ fs =
      prepare_tensorflow_source w ⟨o, os, a, m, false⟩ fs := by
  have hep : ∀ (d' : Bool) (fsx : FS), fsx.dirExists (tfSrcDirInner ⟨o, os, a, m, d'⟩) = true →
      extractAndPatch w ⟨o, os, a, m, d'⟩ fsx = .ok () fsx [] := by
    intro d' fsx hx
    simp [extractAndPatch, hx]
  refine ⟨hep d fs hdir, ?_⟩
  have hdir0 : (fs.createDir (tfSrcDir ⟨o, os, a, m, true⟩)).dirExists
      (tfSrcDirInner ⟨o, os, a, m, true⟩) = true :=
    FS.dirExists_createDir_of fs _ _ hdir
  cases hacq : acquireSource w ⟨o, os, a, m, true⟩ (fs.createDir (tfSrcDir ⟨o, os, a, m, true⟩)) with
  | fatal e fs' tr =>
    have hacq' : acquireSource w ⟨o, os, a, m, false⟩
        (fs.createDir (tfSrcDir ⟨o, os, a, m, false⟩)) = .fatal e fs' tr := hacq
    simp only [tfSrcDir] at hacq hacq'
    simp [prepare_tensorflow_source, Outcome.bind, hacq, hacq', tfSrcDir, tfSrcDirInner]
  | ok u fs' tr =>
    have hacq' : acquireSource w ⟨o, os, a, m, false⟩
        (fs.createDir (tfSrcDir ⟨o, os, a, m, false⟩)) = .ok u fs' tr := hacq
    have hdirs : fs'.dirs = (fs.createDir (tfSrcDir ⟨o, os, a, m, true⟩)).dirs := by
      cases u
      exact acquireSource_ok_dirs w _ _ fs' tr hacq
    have hdir' : ∀ d' : Bool, fs'.dirExists (tfSrcDirInner ⟨o, os, a, m, d'⟩) = true := by
      intro d'
      have : fs'.dirExists (tfSrcDirInner ⟨o, os, a, m, true⟩) = true := by
        simp only [FS.dirExists, hdirs]
        exact hdir0
      exact this
    cases u
    have hepT := hep true fs' (hdir' true)
    have hepF := hep false fs' (hdir' false)
    simp only [tfSrcDir] at hacq hacq'
    simp [prepare_tensorflow_source, Outcome.bind, hacq, hacq', hepT, hepF,
      tfSrcDir, tfSrcDirInner]

/-- Witness for C10 at a concrete input: with the working tree present the
patch phase is the identity. -/
theorem c10_existing_tree_untouched_witness :
    extractAndPatch idleWorld ⟨"out", "linux", "x86_64", none, false⟩
      { files := [], dirs := ["out/tensorflow/tensorflow-1.12.2"] } =
      .ok () { files := [], dirs := ["out/tensorflow/tensorflow-1.12.2"] } [] :=
  (c10_existing_tree_untouched idleWorld "out" "linux" "x86_64" none false
    { files := [], dirs := ["out/tensorflow/tensorflow-1.12.2"] } (by decide)).1

/-- Claim C7: with the artifact absent, the builder runs make with exactly
TARGET=os, TARGET_ARCH=arch and -j parallelism from the
TFLITE_RS_MAKE_PARALLELISM override (default "3"), then copies
gen/os_arch/lib/libtensorflow-lite.a to the stable artifact path; a missing
file there after the build is fatal, as is a make that cannot be spawned. -/
theorem c7_builder_make_and_copy (w : World) (env : Env) (fs : FS) (tflite : FsPath)
    (habs : fs.fileExists (tfLibName env) = false) :
    (makeArgs env = ["-j", env.make_parallelism.getD "3", "-f",
        "tensorflow/contrib/lite/tools/make/Makefile",
        "TARGET=" ++ env.target_os, "TARGET_ARCH=" ++ env.target_arch]) ∧
    (∀ code fs1, w.run fs "make" (makeArgs env) tflite = some (code, fs1) →
      (∀ b, fs1.files.lookup (genLibPath env tflite) = some b →
        prepare_tensorflow_library w env fs tflite =
          .ok () (fs1.writeFile (tfLibName env) b)
            [.runCmd "make" (makeArgs env) tflite,
             .copy (genLibPath env tflite) (tfLibName env)]) ∧
      (fs1.files.lookup (genLibPath env tflite) = none →
        prepare_tensorflow_library w env fs tflite =
          .fatal (.expectPanic "Unable to copy libtensorflow-lite.a to OUT_DIR") fs1
            [.runCmd "make" (makeArgs env) tflite,
             .copy (genLibPath env tflite) (tfLibName env)])) ∧
    (w.run fs "make" (makeArgs env) tflite = none →
      prepare_tensorflow_library w env fs tflite =
        .fatal (.expectPanic "failed to build tensorflow") fs
          [.runCmd "make" (makeArgs env) tflite]) := by
  refine ⟨rfl, ?_, ?_⟩
  · intro code fs1 hrun
    constructor
    · intro b hb
      simp [prepare_tensorflow_library, habs, runStatus, hrun, Outcome.bind,
        copyFileOrPanic, hb]
    · intro hb
      simp [prepare_tensorflow_library, habs, runStatus, hrun, Outcome.bind,
        copyFileOrPanic, hb]
  · intro hrun
    simp [prepare_tensorflow_library, habs, runStatus, hrun, Outcome.bind]

/-- Witness for C7 at a concrete input: make produces the library at the
gen path and it is copied to OUT_DIR. -/
theorem c7_builder_make_and_copy_witness :
    prepare_tensorflow_library makeWorld envLinux64 fsEmpty "tree" =
      .ok () ((fsEmpty.writeFile (genLibPath envLinux64 "tree") [42]).writeFile
          (tfLibName envLinux64) [42])
        [.runCmd "make" (makeArgs envLinux64) "tree",
         .copy (genLibPath envLinux64 "tree") (tfLibName envLinux64)] :=
  (((c7_builder_make_and_copy makeWorld envLinux64 fsEmpty "tree" (by decide)).2.1 0
      (fsEmpty.writeFile (genLibPath envLinux64 "tree") [42]) (by decide)).1) [42] (by decide)

/-- Claim C2 evaluated at its failing input: every external command exits
with status 1, yet extract-and-patch completes successfully — the
dependency script ran, its non-zero exit was ignored, and the later patch
steps still ran; likewise make exiting 1 does not abort the build at the
make step: the fatal error comes only from the later copy finding no
library. -/
theorem c2_nonzero_exit_not_fatal :
    (extractAndPatch exitOneWorld envLinux64 fsFreshTree).isOk = true ∧
    (extractAndPatch exitOneWorld envLinux64 fsFreshTree).trace.contains
      (.runCmd depScript [] (tfSrcDirInner envLinux64)) = true ∧
    (extractAndPatch exitOneWorld envLinux64 fsFreshTree).trace.contains
      (.copy "data/linux_makefile.inc"
        (tfSrcDirInner envLinux64 ++
          "/tensorflow/contrib/lite/tools/make/targets/linux_makefile.inc")) = true ∧
    (prepare_tensorflow_library exitOneWorld envLinux64 fsEmpty "tree").errOf =
      some (.expectPanic "Unable to copy libtensorflow-lite.a to OUT_DIR") ∧
    (prepare_tensorflow_library exitOneWorld envLinux64 fsEmpty "tree").trace.contains
      (.runCmd "make" (makeArgs envLinux64) "tree") = true := by
  refine ⟨?_, ?_, ?_, ?_, ?_⟩ <;> decide

/-- Claim C4 counterexample: on a fully populated output directory the
second pipeline run still regenerates — it runs the binding generator and
rewrites tflite_types.rs (here the previous contents [9] are replaced), so
the cache-hit path is not a pure no-op. -/
theorem c4_counterexample :
    (mainBuild populatedWorld envLinux64 fsPopulated).trace.contains
      Effect.generateBindings = true ∧
    (mainBuild populatedWorld envLinux64 fsPopulated).trace.contains
      (.fileWrite "out/tflite_types.rs") = true ∧
    (mainBuild populatedWorld envLinux64 fsPopulated).fsOf.files.lookup
      "out/tflite_types.rs" = some [] ∧
    fsPopulated.files.lookup "out/tflite_types.rs" = some [9] := by
  refine ⟨?_, ?_, ?_, ?_⟩ <;> decide

/-- Claim C4 as amended: on a populated output directory the pipeline
performs no fetch, no unpack, no external command, no copy and no
deletion; only the unconditional binding generation and shim compilation
remain. -/
theorem c4_amended_cache_hit_effects (w : World) (env : Env) (fs : FS)
    (harch : archiveMissingOrInvalid w fs (tfSrcName env) = false)
    (htree : fs.dirExists (tfSrcDirInner env) = true)
    (hlib : fs.fileExists (tfLibName env) = true) :
    acquisitionOrBuildEffects (mainBuild w env fs).trace = [] := by
  have hfiles := FS.files_createDir fs (tfSrcDir env)
  have harch0 : archiveMissingOrInvalid w (fs.createDir (tfSrcDir env)) (tfSrcName env) = false := by
    rw [archiveMissingOrInvalid_congr_files w _ fs _ hfiles]
    exact harch
  have hacq : acquireSource w env (fs.createDir (tfSrcDir env)) =
      .ok () (fs.createDir (tfSrcDir env)) [] := by
    simp [acquireSource, harch0]
  have htree0 : (fs.createDir (tfSrcDir env)).dirExists (tfSrcDirInner env) = true :=
    FS.dirExists_createDir_of fs _ _ htree
  have hep : extractAndPatch w env (fs.createDir (tfSrcDir env)) =
      .ok () (fs.createDir (tfSrcDir env)) [] := by
    simp [extractAndPatch, htree0]
  have hlib0 : (fs.createDir (tfSrcDir env)).fileExists (tfLibName env) = true := by
    rw [FS.fileExists_createDir]
    exact hlib
  have hlibsk : prepare_tensorflow_library w env (fs.createDir (tfSrcDir env))
      (tfSrcDirInner env) = .ok () (fs.createDir (tfSrcDir env)) [] := by
    simp [prepare_tensorflow_library, hlib0]
  rcases hparse : w.parseHeaders (fs.createDir (tfSrcDir env))
      (tfliteBindgenBuilder (tfSrcDirInner env)) with _ | tree
  · simp [mainBuild, prepare_tensorflow_source, Outcome.bind, hacq, hep, hlibsk,
      import_tflite_types, hparse, acquisitionOrBuildEffects, Effect.isAcquisitionOrBuild]
    intro a ha
    fin_cases ha <;> rfl
  · rcases hcpp : w.cppBuild ((fs.createDir (tfSrcDir env)).writeFile (tfTypesPath env)
        (renderDecls (generateBindings (tfliteBindgenBuilder (tfSrcDirInner env)) tree)))
        (tfSrcDirInner env) with _ | fsz
    · simp [mainBuild, prepare_tensorflow_source, Outcome.bind, hacq, hep, hlibsk,
        import_tflite_types, hparse, build_inline_cpp, hcpp,
        acquisitionOrBuildEffects, Effect.isAcquisitionOrBuild]
      intro a ha
      fin_cases ha <;> rfl
    · simp [mainBuild, prepare_tensorflow_source, Outcome.bind, hacq, hep, hlibsk,
        import_tflite_types, hparse, build_inline_cpp, hcpp,
        acquisitionOrBuildEffects, Effect.isAcquisitionOrBuild]
      intro a ha
      fin_cases ha <;> rfl

/-- Witness for the amended C4 at a concrete populated directory. -/
theorem c4_amended_cache_hit_effects_witness :
    acquisitionOrBuildEffects (mainBuild populatedWorld envLinux64 fsPopulated).trace = [] :=
  c4_amended_cache_hit_effects populatedWorld envLinux64 fsPopulated
    (by decide) (by decide) (by decide)

/-- Claim C5 counterexample: the fetch write is not atomic — `File::create`
truncates the target at once and the body is streamed, so a transfer that
fails mid-stream leaves a partial prefix at the expected path, neither the
previous contents nor the complete new body. -/
theorem c5_counterexample :
    (download cutNetWorld fsOldArchive tfSrcUrl "t").isOk = false ∧
    (download cutNetWorld fsOldArchive tfSrcUrl "t").fsOf.files.lookup "t" = some [5, 6] ∧
    ¬((download cutNetWorld fsOldArchive tfSrcUrl "t").fsOf.files.lookup "t" =
        fsOldArchive.files.lookup "t" ∨
      (download cutNetWorld fsOldArchive tfSrcUrl "t").fsOf.files.lookup "t" =
        some [5, 6, 7, 8]) := by
  refine ⟨?_, ?_, ?_⟩ <;> decide

/-- Claim C5 as amended: the fetch touches no path other than the expected
one, never removes a directory entry, and never deletes the target (it
exists afterwards whenever it existed before, and also after any partial
write); every write effect in the trace is to the expected path. The
write is not atomic (see the counterexample). -/
theorem c5_amended_fetch_frame (w : World) (fs : FS) (url : String) (target : FsPath) :
    (∀ p, p ≠ target →
      (download w fs url target).fsOf.files.lookup p = fs.files.lookup p) ∧
    ((download w fs url target).fsOf.dirs = fs.dirs) ∧
    (fs.fileExists target = true →
      (download w fs url target).fsOf.fileExists target = true) ∧
    (∀ p, (Effect.fileWrite p) ∈ (download w fs url target).trace → p = target) := by
  rcases hnet : w.net url with _ | ⟨body, cut⟩
  · refine ⟨?_, ?_, ?_, ?_⟩ <;> simp [download, hnet, Outcome.fsOf, Outcome.trace]
  · rcases cut with _ | k
    · refine ⟨?_, ?_, ?_, ?_⟩
      · intro p hp
        simp [download, hnet, Outcome.fsOf, FS.lookup_writeFile_ne, hp]
      · simp [download, hnet, Outcome.fsOf, FS.writeFile]
      · intro _
        simp [download, hnet, Outcome.fsOf, FS.fileExists, FS.lookup_writeFile_self]
      · intro p hmem
        simp [download, hnet, Outcome.trace] at hmem
        exact hmem
    · refine ⟨?_, ?_, ?_, ?_⟩
      · intro p hp
        simp [download, hnet, Outcome.fsOf, FS.lookup_writeFile_ne, hp]
      · simp [download, hnet, Outcome.fsOf, FS.writeFile]
      · intro _
        simp [download, hnet, Outcome.fsOf, FS.fileExists, FS.lookup_writeFile_self]
      · intro p hmem
        simp [download, hnet, Outcome.trace] at hmem
        exact hmem

/-- Witness for the amended C5 at a concrete input: the failed transfer
leaves other paths and the directory set unchanged and the target still
present. -/
theorem c5_amended_fetch_frame_witness :
    (download cutNetWorld fsOldArchive tfSrcUrl "t").fsOf.files.lookup "u" =
      fsOldArchive.files.lookup "u" ∧
    (download cutNetWorld fsOldArchive tfSrcUrl "t").fsOf.dirs = fsOldArchive.dirs ∧
    (download cutNetWorld fsOldArchive tfSrcUrl "t").fsOf.fileExists "t" = true :=
  ⟨(c5_amended_fetch_frame cutNetWorld fsOldArchive tfSrcUrl "t").1 "u" (by decide),
   (c5_amended_fetch_frame cutNetWorld fsOldArchive tfSrcUrl "t").2.1,
   (c5_amended_fetch_frame cutNetWorld fsOldArchive tfSrcUrl "t").2.2.1 (by decide)⟩

/-- Claim C6 counterexample: for the cross-compilation target
(os="linux", arch="aarch64") the patcher overwrites BOTH the Linux
position-independent-code makefile and the aarch64 makefile — the claimed
"reverse" (aarch64 patch only, Linux patch not applied) does not hold. -/
theorem c6_counterexample :
    (extractAndPatch okCmdWorld envLinuxA64 fsFreshTree).trace.contains
      (.copy "data/linux_makefile.inc" linuxIncDst) = true ∧
    (extractAndPatch okCmdWorld envLinuxA64 fsFreshTree).trace.contains
      (.copy "data/aarch64_makefile.inc" aarch64IncDst) = true ∧
    (extractAndPatch okCmdWorld envLinuxA64 fsFreshTree).isOk = true := by
  refine ⟨?_, ?_, ?_⟩ <;> decide

/-- Claim C6 as amended: the two makefile overwrites are independent — the
Linux position-independent-code makefile is overwritten exactly when the
target operating system is "linux", and the aarch64 cross-compilation
makefile exactly when the target architecture is "aarch64"; in particular
(linux, x86_64) receives only the Linux patch, a non-linux aarch64 target
only the aarch64 patch, and (linux, aarch64) receives both. -/
theorem c6_amended_patches_independent (os arch : String) :
    ((extractAndPatch okCmdWorld (envOf os arch) fsFreshTree).trace.contains
      (.copy "data/linux_makefile.inc" linuxIncDst) = (os == "linux")) ∧
    ((extractAndPatch okCmdWorld (envOf os arch) fsFreshTree).trace.contains
      (.copy "data/aarch64_makefile.inc" aarch64IncDst) = (arch == "aarch64")) := by
  cases hos : os == "linux" <;> cases harch : arch == "aarch64" <;>
    simp only [extractAndPatch, condStep, envOf, tfSrcDirInner, tfSrcDir, tfSrcName,
      hos, harch] <;> decide

theorem generateBindings_mem (b : Builder) (tree : HeaderTree) (d : GenDecl) :
    d ∈ generateBindings b tree ↔
      ∃ t, t ∈ tree ∧ t.name ∉ b.blacklistedTypes ∧ t.name ∈ b.whitelistedTypes ∧
        ((t.name ∈ b.opaqueTypes ∧ d = .opaqueHandle t.name t.size) ∨
         (t.name ∉ b.opaqueTypes ∧ d = .concrete t.name t.fields)) := by
  simp only [generateBindings, List.mem_filterMap]
  constructor
  · rintro ⟨t, ht, hf⟩
    by_cases hbl : t.name ∈ b.blacklistedTypes
    · simp [hbl] at hf
    · by_cases hwl : t.name ∈ b.whitelistedTypes
      · by_cases hop : t.name ∈ b.opaqueTypes
        · simp [hbl, hwl, hop] at hf
          exact ⟨t, ht, hbl, hwl, Or.inl ⟨hop, hf.symm⟩⟩
        · simp [hbl, hwl, hop] at hf
          exact ⟨t, ht, hbl, hwl, Or.inr ⟨hop, hf.symm⟩⟩
      · simp [hbl, hwl] at hf
  · rintro ⟨t, ht, hbl, hwl, h | h⟩
    · exact ⟨t, ht, by simp [hbl, hwl, h.1, h.2]⟩
    · exact ⟨t, ht, by simp [hbl, hwl, h.1, h.2]⟩

theorem opaque_name_checks (tflite : FsPath) (s : String)
    (h : s ∈ (tfliteBindgenBuilder tflite).opaqueTypes) :
    s ∉ (tfliteBindgenBuilder tflite).blacklistedTypes ∧
    s ∈ (tfliteBindgenBuilder tflite).whitelistedTypes ∧
    s ∈ (tfliteBindgenBuilder tflite).opaqueTypes := by
  have h0 : (tfliteBindgenBuilder tflite).opaqueTypes =
      ["tflite::FlatBufferModel", "tflite::InterpreterBuilder", "tflite::Interpreter",
       "tflite::ops::builtin::BuiltinOpResolver", "tflite::OpResolver", "TfLiteDelegate"] := rfl
  have hbl0 : (tfliteBindgenBuilder tflite).blacklistedTypes =
      ["std", "tflite::Interpreter_TfLiteDelegatePtr", "tflite::Interpreter_State"] := rfl
  have hwl0 : (tfliteBindgenBuilder tflite).whitelistedTypes =
      ["tflite::FlatBufferModel", "tflite::InterpreterBuilder", "tflite::Interpreter",
       "tflite::ops::builtin::BuiltinOpResolver", "tflite::OpResolver", "TfLiteTensor",
       "TfLiteType", "TfLitePtrUnion", "TfLiteIntArray", "TfLiteQuantizationParams",
       "TfLiteAllocationType", "TfLiteDelegate", "TfLiteBufferHandle", "TfLiteComplex64",
       "TfLiteStatus", "TfLiteQuantizationParams"] := rfl
  rw [h0] at h
  rw [h0, hbl0, hwl0]
  simp only [List.mem_cons, List.not_mem_nil, or_false] at h
  rcases h with h | h | h | h | h | h <;> subst h <;> refine ⟨by simp, by simp, by simp⟩

theorem concrete_name_checks (tflite : FsPath) (s : String)
    (hw : s ∈ (tfliteBindgenBuilder tflite).whitelistedTypes)
    (hno : s ∉ (tfliteBindgenBuilder tflite).opaqueTypes) :
    s ∉ (tfliteBindgenBuilder tflite).blacklistedTypes ∧
    s ∈ (tfliteBindgenBuilder tflite).whitelistedTypes ∧
    s ∉ (tfliteBindgenBuilder tflite).opaqueTypes := by
  have h0 : (tfliteBindgenBuilder tflite).opaqueTypes =
      ["tflite::FlatBufferModel", "tflite::InterpreterBuilder", "tflite::Interpreter",
       "tflite::ops::builtin::BuiltinOpResolver", "tflite::OpResolver", "TfLiteDelegate"] := rfl
  have hbl0 : (tfliteBindgenBuilder tflite).blacklistedTypes =
      ["std", "tflite::Interpreter_TfLiteDelegatePtr", "tflite::Interpreter_State"] := rfl
  have hwl0 : (tfliteBindgenBuilder tflite).whitelistedTypes =
      ["tflite::FlatBufferModel", "tflite::InterpreterBuilder", "tflite::Interpreter",
       "tflite::ops::builtin::BuiltinOpResolver", "tflite::OpResolver", "TfLiteTensor",
       "TfLiteType", "TfLitePtrUnion", "TfLiteIntArray", "TfLiteQuantizationParams",
       "TfLiteAllocationType", "TfLiteDelegate", "TfLiteBufferHandle", "TfLiteComplex64",
       "TfLiteStatus", "TfLiteQuantizationParams"] := rfl
  refine ⟨?_, hw, hno⟩
  rw [hwl0] at hw
  rw [hbl0]
  simp only [List.mem_cons, List.not_mem_nil, or_false] at hw
  rcases hw with h | h | h | h | h | h | h | h | h | h | h | h | h | h | h | h <;> subst h <;> simp

/-- Claim C8: the bindgen configuration marks exactly the six handle types
opaque and blacklists the three internal names; in the generated
declarations (generator modelled from the spec) every opaque-marked entry
appears with no accessible fields, every concrete (whitelisted non-opaque)
header type appears as a layout-faithful concrete declaration, and
blacklisted names never appear even when present in the header tree. -/
theorem c8_opaque_concrete_blacklist (tflite : FsPath) (tree : HeaderTree) :
    ((tfliteBindgenBuilder tflite).opaqueTypes =
      ["tflite::FlatBufferModel", "tflite::InterpreterBuilder", "tflite::Interpreter",
       "tflite::ops::builtin::BuiltinOpResolver", "tflite::OpResolver", "TfLiteDelegate"]) ∧
    ((tfliteBindgenBuilder tflite).blacklistedTypes =
      ["std", "tflite::Interpreter_TfLiteDelegatePtr", "tflite::Interpreter_State"]) ∧
    (∀ d ∈ generateBindings (tfliteBindgenBuilder tflite) tree,
      d.name ∉ (tfliteBindgenBuilder tflite).blacklistedTypes) ∧
    (∀ d ∈ generateBindings (tfliteBindgenBuilder tflite) tree,
      d.name ∈ (tfliteBindgenBuilder tflite).opaqueTypes →
        d.isOpaqueHandle = true ∧ d.accessibleFields = []) ∧
    (∀ t ∈ tree, t.name ∈ (tfliteBindgenBuilder tflite).opaqueTypes →
      GenDecl.opaqueHandle t.name t.size ∈
        generateBindings (tfliteBindgenBuilder tflite) tree) ∧
    (∀ t ∈ tree, t.name ∈ (tfliteBindgenBuilder tflite).whitelistedTypes →
      t.name ∉ (tfliteBindgenBuilder tflite).opaqueTypes →
      GenDecl.concrete t.name t.fields ∈
        generateBindings (tfliteBindgenBuilder tflite) tree) := by
  refine ⟨rfl, rfl, ?_, ?_, ?_, ?_⟩
  · intro d hd hmem
    obtain ⟨t, ht, hbl, hwl, hcase⟩ := (generateBindings_mem _ tree d).mp hd
    rcases hcase with ⟨hop, rfl⟩ | ⟨hop, rfl⟩ <;>
      simp only [GenDecl.name] at hmem <;> exact hbl hmem
  · intro d hd hmem
    obtain ⟨t, ht, hbl, hwl, hcase⟩ := (generateBindings_mem _ tree d).mp hd
    rcases hcase with ⟨hop, rfl⟩ | ⟨hop, rfl⟩
    · exact ⟨rfl, rfl⟩
    · simp only [GenDecl.name] at hmem
      exact absurd hmem hop
  · intro t ht hmem
    obtain ⟨hbl, hwl, hop⟩ := opaque_name_checks tflite t.name hmem
    exact (generateBindings_mem _ tree _).mpr ⟨t, ht, hbl, hwl, Or.inl ⟨hop, rfl⟩⟩
  · intro t ht hw hno
    obtain ⟨hbl, hwl, hop⟩ := concrete_name_checks tflite t.name hw hno
    exact (generateBindings_mem _ tree _).mpr ⟨t, ht, hbl, hwl, Or.inr ⟨hop, rfl⟩⟩

/-- Witness for C8 at a concrete header tree: the interpreter handle comes
out opaque, the tensor comes out concrete with its fields, and the
blacklisted name is absent. -/
theorem c8_opaque_concrete_blacklist_witness :
    GenDecl.opaqueHandle "tflite::Interpreter" 96 ∈
      generateBindings (tfliteBindgenBuilder "tree") sampleTree ∧
    GenDecl.concrete "TfLiteTensor" [("type", "TfLiteType"), ("data", "TfLitePtrUnion")] ∈
      generateBindings (tfliteBindgenBuilder "tree") sampleTree ∧
    (GenDecl.name <$> generateBindings (tfliteBindgenBuilder "tree") sampleTree) =
      ["tflite::Interpreter", "TfLiteTensor"] :=
  ⟨((c8_opaque_concrete_blacklist "tree" sampleTree).2.2.2.2.1
      { name := "tflite::Interpreter", fields := [("impl", "void*")], size := 96 }
      (by decide) (by decide)),
   ((c8_opaque_concrete_blacklist "tree" sampleTree).2.2.2.2.2
      { name := "TfLiteTensor",
        fields := [("type", "TfLiteType"), ("data", "TfLitePtrUnion")], size := 64 }
      (by decide) (by decide) (by decide)),
   by decide⟩

/-- Claim C9: binding generation is deterministic and depends on no
external state beyond the parsed header tree — two worlds whose parsers
agree produce identical outcomes, and whenever two runs (even from
different filesystems and worlds) parse the same header tree, the bytes
written to tflite_types.rs are identical. -/
theorem c9_generation_deterministic (w1 w2 : World) (env : Env) (fs fsa fsb : FS)
    (tflite : FsPath) :
    (w1.parseHeaders fs (tfliteBindgenBuilder tflite) =
        w2.parseHeaders fs (tfliteBindgenBuilder tflite) →
      import_tflite_types w1 env fs tflite = import_tflite_types w2 env fs tflite) ∧
    (∀ tree, w1.parseHeaders fsa (tfliteBindgenBuilder tflite) = some tree →
      w2.parseHeaders fsb (tfliteBindgenBuilder tflite) = some tree →
      (import_tflite_types w1 env fsa tflite).fsOf.files.lookup (tfTypesPath env) =
        (import_tflite_types w2 env fsb tflite).fsOf.files.lookup (tfTypesPath env)) := by
  constructor
  · intro h
    simp only [import_tflite_types, h]
  · intro tree h1 h2
    simp only [import_tflite_types, h1, h2, Outcome.fsOf]
    rw [FS.lookup_writeFile_self, FS.lookup_writeFile_self]

/-- Witness for C9: two worlds differing in every other oracle but sharing
the parser produce identical generation outcomes. -/
theorem c9_generation_deterministic_witness :
    import_tflite_types w9a envLinux64 fsEmpty "tree" =
      import_tflite_types w9b envLinux64 fsEmpty "tree" :=
  (c9_generation_deterministic w9a w9b envLinux64 fsEmpty fsEmpty fsEmpty "tree").1 rfl
